import Mathlib

/-!
Verification of the Studentenwerk-Leipzig canteen menu crawler
(`src/main.rs`) against its natural-language specification.

The Rust program is shallowly embedded: pure computations become Lean
functions, the filesystem cache becomes an explicit state value threaded
through the cache operations, and the network is an oracle argument
(`Option (Nat × String)`: `none` models a transport failure, `some (status,
body)` a completed HTTP exchange).  Process aborts (Rust `unwrap`/`expect`
panics and `exit(0)`) are modelled as explicit error values of the
result type, so that every function is total and the abort conditions are
visible in the theorems.  Machine integers (`i64`, `i32`) are modelled as
`Int` (no arithmetic in the program comes near overflow), and Rust byte
strings are modelled as `List Nat` of their UTF-8 bytes where the code
slices by byte index.
-/

namespace Mensa

/-! ### Byte-level string helpers (Rust `str` byte slicing and parsing) -/

/-- UTF-8 encoding of one character, as byte values (what Rust strings store). -/
def charUtf8 (c : Char) : List Nat :=
  let n := c.toNat
  if n < 128 then [n]
  else if n < 2048 then [192 + n / 64, 128 + n % 64]
  else if n < 65536 then [224 + n / 4096, 128 + (n / 64) % 64, 128 + n % 64]
  else [240 + n / 262144, 128 + (n / 4096) % 64, 128 + (n / 64) % 64, 128 + n % 64]

/-- The UTF-8 byte sequence of a string: the byte view a Rust `String` exposes
to `len()` and range indexing. -/
def utf8Bytes (s : String) : List Nat := s.data.flatMap charUtf8

/-- Rust `usize` subtraction `a - b`: panics (models as `none`) when `b > a`
(debug overflow panic; in release the wrapped huge index makes the subsequent
slice panic instead, so `none` is the outcome either way). -/
def rustSub? (a b : Nat) : Option Nat := if b ≤ a then some (a - b) else none

/-- Rust `str::is_char_boundary` on the byte view: true at the end of the
string or on a byte that is not a UTF-8 continuation byte. -/
def isCharBoundary (bs : List Nat) (i : Nat) : Bool :=
  if i = bs.length then true
  else
    match bs.drop i with
    | [] => false
    | b :: _ => decide (b < 128 ∨ 192 ≤ b)

/-- Rust byte-range slicing `s[a..b]`: defined only when the range is within
bounds and both ends are char boundaries; otherwise the program panics
(`none`). -/
def rustSliceBytes (bs : List Nat) (a b : Nat) : Option (List Nat) :=
  if a ≤ b ∧ b ≤ bs.length ∧ isCharBoundary bs a = true ∧ isCharBoundary bs b = true then
    some ((bs.drop a).take (b - a))
  else none

/-- Value of an ASCII digit byte, `none` on any other byte. -/
def digitVal? (b : Nat) : Option Nat := if 48 ≤ b ∧ b ≤ 57 then some (b - 48) else none

/-- Accumulating decimal parse over digit bytes. -/
def parseDigitsAux (acc : Nat) : List Nat → Option Nat
  | [] => some acc
  | b :: rest =>
    match digitVal? b with
    | none => none
    | some v => parseDigitsAux (acc * 10 + v) rest

/-- Nonempty all-digit parse (the digit part of Rust `str::parse`). -/
def parseDigits : List Nat → Option Nat
  | [] => none
  | bs => parseDigitsAux 0 bs

/-- Rust `str::parse::<i32>`: optional sign, then one or more ASCII digits,
within the `i32` range. -/
def parseI32 (bs : List Nat) : Option Int :=
  match bs with
  | [] => none
  | b :: rest =>
    if b = 43 then
      match parseDigits rest with
      | none => none
      | some n => if n ≤ 2147483647 then some (n : Int) else none
    else if b = 45 then
      match parseDigits rest with
      | none => none
      | some n => if n ≤ 2147483648 then some (-(n : Int)) else none
    else
      match parseDigits (b :: rest) with
      | none => none
      | some n => if n ≤ 2147483647 then some (n : Int) else none

/-- Zero padding of a natural number to a minimum width, as Rust `{:0w}`. -/
def natPadZeros (w : Nat) (n : Nat) : String :=
  let s := Nat.repr n
  String.mk (List.replicate (w - s.length) '0') ++ s

/-- Rust `{:0w}` formatting of a signed integer (the sign occupies one column
of the width). -/
def rustPad (w : Nat) (v : Int) : String :=
  if v < 0 then "-" ++ natPadZeros (w - 1) v.natAbs else natPadZeros w v.natAbs

/-- ASCII whitespace test used to model Rust `str::trim` on the strings this
program trims (menu text; the Unicode-only whitespace code points do not
occur in them). -/
def isWsChar (c : Char) : Bool := c == ' ' || c == '\t' || c == '\n' || c == '\r'

/-- Drop leading and trailing whitespace, modelling Rust `str::trim`. -/
def trimChars (cs : List Char) : List Char :=
  ((cs.dropWhile isWsChar).reverse.dropWhile isWsChar).reverse

/-- Split a character list at newline characters, modelling Rust
`str::split("\n")`: always returns at least one (possibly empty) piece. -/
def splitOnNl (cs : List Char) : List (List Char) :=
  match cs with
  | [] => [[]]
  | c :: rest =>
    match splitOnNl rest with
    | [] => [[]]
    | h :: t => if c = '\n' then [] :: h :: t else (c :: h) :: t

/-- Last line of a string, trimmed: models
`s.split("\n").last().unwrap().trim().to_string()` from the price extraction
(`main.rs` lines 431-440).  Rust `split` never yields an empty iterator, so
the `unwrap` there cannot fail. -/
def lastLineTrimmed (s : String) : String :=
  String.mk (trimChars ((splitOnNl s.data).getLastD []))

/-! ### Date-echo reformatting (`parse_data_from_html`, `main.rs` 356-377)

The received date string is byte-sliced at fixed offsets from its end:
`[len-4..]` as the year, `[len-7..len-5]` as the month and
`[len-10..len-8]` as the day, each fed to `parse::<i32>().unwrap()` and
re-formatted as `{:04}-{:02}-{:02}`.  Every way this can fail in Rust
(underflowing subtraction, out-of-range or non-boundary slice, failed
integer parse) is an `unwrap`-style panic, modelled as `none`. -/

/-- Reformat the date-echo bytes to `YYYY-MM-DD` exactly as `main.rs`
lines 363-377 do; `none` models the panic of the corresponding `unwrap`. -/
def recvDateFormattedBytes (bs : List Nat) : Option String :=
  (rustSub? bs.length 4).bind fun a1 =>
  (rustSliceBytes bs a1 bs.length).bind fun ys =>
  (parseI32 ys).bind fun y =>
  (rustSub? bs.length 7).bind fun a2 =>
  (rustSub? bs.length 5).bind fun b2 =>
  (rustSliceBytes bs a2 b2).bind fun ms =>
  (parseI32 ms).bind fun m =>
  (rustSub? bs.length 10).bind fun a3 =>
  (rustSub? bs.length 8).bind fun b3 =>
  (rustSliceBytes bs a3 b3).bind fun ds =>
  (parseI32 ds).bind fun d =>
  some (rustPad 4 y ++ "-" ++ rustPad 2 m ++ "-" ++ rustPad 2 d)

/-- Date-echo reformatting on a Rust string (its UTF-8 byte view). -/
def recvDateFormatted (s : String) : Option String :=
  recvDateFormattedBytes (utf8Bytes s)

/-- Test for an ASCII digit byte. -/
def isDigitByte (b : Nat) : Bool := decide (48 ≤ b ∧ b ≤ 57)

/-- Claim-side shape predicate: the byte string is at least 10 bytes long and
its last ten bytes are `DD.MM.YYYY` (digits and dots).  Stated from the
claim's words, to be compared with what `recvDateFormattedBytes` accepts. -/
def dateShape (bs : List Nat) : Bool :=
  decide (10 ≤ bs.length) &&
    (match bs.drop (bs.length - 10) with
     | [d1, d2, p1, m1, m2, p2, y1, y2, y3, y4] =>
       isDigitByte d1 && isDigitByte d2 && (p1 == 46) && isDigitByte m1 &&
         isDigitByte m2 && (p2 == 46) && isDigitByte y1 && isDigitByte y2 &&
         isDigitByte y3 && isDigitByte y4
     | _ => false)

/-! ### Structured records (`main.rs` 41-58) -/

/-- One dish: `SingleMeal { name, additional_ingredients, price }`. -/
structure SingleMeal where
  name : String
  additional_ingredients : List String
  price : String
deriving DecidableEq, Repr

/-- One category block: `MealGroup { meal_type, sub_meals }`. -/
structure MealGroup where
  meal_type : String
  sub_meals : List SingleMeal
deriving DecidableEq, Repr

/-- One day's menu: `DayMeals { date, meal_groups }`.  `date` is the raw
date-echo text of the page, exactly as the source stores it. -/
structure DayMeals where
  date : String
  meal_groups : List MealGroup
deriving DecidableEq, Repr

/-! ### DOM model

`parse_data_from_html` walks the scraped document through a fixed set of
CSS selector queries.  An element is modelled by its tag name, class list,
`inner_html` text and child elements (text nodes are dropped:
`next_sibling_element` and `:scope > *` only ever see elements).  The child
list is a mutually inductive list so that subtree traversal is structural
recursion. -/

mutual
inductive Elem where
  | mk (tag : String) (classes : List String) (inner : String) (children : ElemList)
deriving DecidableEq, Repr
inductive ElemList where
  | nil
  | cons (e : Elem) (rest : ElemList)
deriving DecidableEq, Repr
end

def Elem.tag : Elem → String
  | .mk t _ _ _ => t

def Elem.classes : Elem → List String
  | .mk _ c _ _ => c

def Elem.inner : Elem → String
  | .mk _ _ i _ => i

def Elem.children : Elem → ElemList
  | .mk _ _ _ ch => ch

def ElemList.toList : ElemList → List Elem
  | .nil => []
  | .cons e rest => e :: rest.toList

def ElemList.ofList : List Elem → ElemList
  | [] => .nil
  | e :: rest => .cons e (ofList rest)

/-- Convenience constructor taking the children as a plain list. -/
def elemOf (tag : String) (classes : List String) (inner : String)
    (children : List Elem) : Elem :=
  .mk tag classes inner (ElemList.ofList children)

mutual
/-- All strict descendants of an element paired with their ancestor tag
chains (nearest ancestor first), in document (pre-)order; `anc` is the chain
above the element itself.  This is the traversal scraper's scoped `select`
performs. -/
def childChains : Elem → List String → List (Elem × List String)
  | .mk t c i ch, anc => (Elem.mk t c i ch, anc) :: childChainsL ch (t :: anc)
def childChainsL : ElemList → List String → List (Elem × List String)
  | .nil, _ => []
  | .cons e rest, anc => childChains e anc ++ childChainsL rest anc
end

/-- Scoped CSS query for a pure child-combinator selector `t1>t2>...>tn`
(given as the tag list `[t1, ..., tn]`): the descendants of `root` whose tag
is `tn` and whose nearest ancestors (which may include `root` itself) carry
tags `t(n-1), ..., t1`, in document order.  This is the only selector shape
the dish extraction uses (`details>ul>li`, `header>div>div>h4`,
`header>div>div>p`). -/
def selPath (path : List String) (root : Elem) : List Elem :=
  match path.reverse with
  | [] => []
  | tn :: restRev =>
    ((childChainsL root.children [root.tag]).filter
      (fun p => p.1.tag == tn && p.2.take restRev.length == restRev)).map Prod.fst

/-- Abstraction of the parsed HTML document by the results of the two
top-level selector queries `parse_data_from_html` issues against it:
the `inner_html` of `select#edit-date>option[selected='selected']` (`none`
when no such node exists, which makes the source's `.next().unwrap()` panic)
and the child elements of the first `section.meals` (`none` when absent,
ditto). -/
structure Doc where
  selOption : Option String
  meals : Option (List Elem)

/-- Outcome of `parse_data_from_html` when it does not return a `DayMeals`:
`crashed` models any `unwrap` panic (process abort), `noMenu` models the
`exit(0)` taken when the date-echo differs from the requested date
(`main.rs` 379-382, "Für den Tag existiert noch kein Plan."). -/
inductive ParseFail where
  | crashed
  | noMenu
deriving DecidableEq, Repr

/-- Sibling-skip search (`main.rs` 397-409): starting from the elements after
a `title-prim` child, advance until an element carrying both the `accordion`
and `u-block` classes; `none` models the `next_sibling_element().unwrap()`
panic on falling off the end of the sibling chain. -/
def findAccordion : List Elem → Option Elem
  | [] => none
  | e :: rest =>
    if e.classes.contains "accordion" && e.classes.contains "u-block" then some e
    else findAccordion rest

/-- Extraction of one dish element (`main.rs` 413-445): extras from
`details>ul>li`, name from the first `header>div>div>h4`, price as the
trimmed last line of the first `header>div>div>p`; `none` models the panic
of `.next().unwrap()` when a required node is missing. -/
def parseSingleMeal (dish : Elem) : Option SingleMeal :=
  let extras := (selPath ["details", "ul", "li"] dish).map Elem.inner
  match (selPath ["header", "div", "div", "h4"] dish).head? with
  | none => none
  | some h4 =>
    match (selPath ["header", "div", "div", "p"] dish).head? with
    | none => none
    | some p => some ⟨h4.inner, extras, lastLineTrimmed p.inner⟩

/-- Extraction of the dishes of one accordion block, in order, stopping at
the first panicking dish. -/
def parseMeals : List Elem → Option (List SingleMeal)
  | [] => some []
  | d :: rest =>
    match parseSingleMeal d with
    | none => none
    | some m =>
      match parseMeals rest with
      | none => none
      | some ms => some (m :: ms)

/-- The group loop of `parse_data_from_html` (`main.rs` 389-456): walk the
children of `section.meals` in order; each `title-prim` child opens a group
labelled by its `inner_html`, whose dishes live in the next sibling carrying
`accordion` and `u-block`. -/
def parseGroups : List Elem → Option (List MealGroup)
  | [] => some []
  | child :: rest =>
    if child.classes.contains "title-prim" then
      match findAccordion rest with
      | none => none
      | some acc =>
        match parseMeals acc.children.toList with
        | none => none
        | some meals =>
          match parseGroups rest with
          | none => none
          | some gs => some (⟨child.inner, meals⟩ :: gs)
    else parseGroups rest

/-- The extractor `parse_data_from_html` (`main.rs` 348-465): read the
date-echo, reformat it, compare with the requested date (mismatch is the
`exit(0)` "no menu published" path), then extract the meal groups. -/
def parse_data_from_html (doc : Doc) (req_date_formatted : String) :
    Except ParseFail DayMeals :=
  match doc.selOption with
  | none => .error .crashed
  | some received_date =>
    match recvDateFormatted received_date with
    | none => .error .crashed
    | some received_date_formatted =>
      if received_date_formatted ≠ req_date_formatted then .error .noMenu
      else
        match doc.meals with
        | none => .error .crashed
        | some children =>
          match parseGroups children with
          | none => .error .crashed
          | some groups => .ok ⟨received_date, groups⟩

/-! ### Date arithmetic (`build_heute_msg` 249-265, `prefetch` 102-136)

Calendar dates are modelled as integers (day numbers); adding
`Duration::days(n)` is integer addition and the weekday cycles with period
7.  The epoch is chosen so that day 0 is a Monday. -/

inductive Weekday where
  | mon
  | tue
  | wed
  | thu
  | fri
  | sat
  | sun
deriving DecidableEq, Repr

/-- Weekday of an integer day number (day 0 is a Monday). -/
def weekdayOfInt (d : Int) : Weekday :=
  match (d % 7).toNat with
  | 0 => .mon
  | 1 => .tue
  | 2 => .wed
  | 3 => .thu
  | 4 => .fri
  | 5 => .sat
  | _ => .sun

/-- Date resolution of `build_heute_msg` (`main.rs` 249-265): the requested
date is `today + mode` days; a Saturday is pushed 2 days and a Sunday 1 day
forward.  Returns the resolved date together with `date_raised_by_days`. -/
def resolveDate (today mode : Int) : Int × Int :=
  let requested_date := today + mode
  match weekdayOfInt requested_date with
  | .sat => (requested_date + 2, 2)
  | .sun => (requested_date + 1, 1)
  | _ => (requested_date, 0)

/-- The forward-shift annotation of `build_heute_msg` (`main.rs` 278-284):
non-empty only for a `mode = 0` request that was shifted. -/
def futureDayInfo (mode date_raised_by_days : Int) : String :=
  if mode = 0 ∧ date_raised_by_days = 1 then "(Morgen)"
  else if mode = 0 ∧ date_raised_by_days = 2 then "(Übermorgen)"
  else ""

/-- The prefetch date set (`prefetch`, `main.rs` 102-136): the hardcoded
per-weekday list of dates to warm. -/
def prefetchDays (today : Int) : List Int :=
  match weekdayOfInt today with
  | .thu => [today, today + 1, today + 4]
  | .fri => [today, today + 3]
  | .sat => [today + 2]
  | .sun => [today + 1, today + 2]
  | _ => [today, today + 1, today + 2]

/-- The join loop of `prefetch` (`main.rs` 148-150):
`for handle in handles { handle.await.expect("Panic in task") }`.  Input:
for each spawned task, whether it completed without panicking.  Output: how
many handles were awaited before the loop ended, and whether the loop ran to
completion (`false` means the `expect` re-raised a task panic, aborting the
whole process and with it every unit not yet joined). -/
def prefetchJoin : List Bool → Nat × Bool
  | [] => (0, true)
  | ok :: rest =>
    if ok then ((prefetchJoin rest).1 + 1, (prefetchJoin rest).2)
    else (1, false)

/-! ### Fetch and cache (`reqwest_data` 154-165, `cache_day_data` 168-201,
`save_cache_to_file` 203-224, `get_meals` 467-513)

The network is an oracle `Option (Nat × String)`: `none` is a transport
failure, `some (status, body)` a completed HTTP exchange with its status
code and body text.  The `cached_data/` directory is a `CacheFs` value:
an association list for the raw-HTML files (named by the URL query string)
and one for the `.json` files (stored as their decoded `DayMeals`, i.e.
serde round-trips are taken as exact).  Scraper's HTML parsing front-end is
abstracted as a `scrape : String → Doc` oracle shared by all operations;
none of the cache claims depend on its value. -/

/-- Outcome kind when a cache/fetch operation does not return normally:
`crashed` models an `unwrap`/`expect` panic, `exitZero` models the `exit(0)`
of the extractor's no-menu path. -/
inductive RunFail where
  | crashed
  | exitZero
deriving DecidableEq, Repr

/-- Counters for the observable effects of one cache operation. -/
structure Trace where
  extractions : Nat
  rawWrites : Nat
  jsonWrites : Nat
  fetches : Nat
deriving DecidableEq, Repr

/-- The cache directory contents, split by file kind. -/
structure CacheFs where
  raws : List (String × String)
  jsons : List (String × DayMeals)
deriving DecidableEq, Repr

/-- Association-list update: replace the entry for `k`, or append it. -/
def setKV {α : Type} (l : List (String × α)) (k : String) (v : α) :
    List (String × α) :=
  match l with
  | [] => [(k, v)]
  | (k2, v2) :: rest => if k2 = k then (k, v) :: rest else (k2, v2) :: setKV rest k v

/-- Association-list lookup by key. -/
def getKV {α : Type} (l : List (String × α)) (k : String) : Option α :=
  match l with
  | [] => none
  | (k2, v2) :: rest => if k2 = k then some v2 else getKV rest k

/-- The URL query string `location=140&date=...`, which doubles as the cache
file name (`main.rs` 175 and 475; `loc` is the constant `140` in both). -/
def urlParams (req_date_formatted : String) : String :=
  "location=140&date=" ++ req_date_formatted

/-- The fetcher `reqwest_data` (`main.rs` 154-165): on transport failure the
`expect("URL request failed")` panics; otherwise the body text is returned
whatever the HTTP status code is (the status is never inspected). -/
def reqwest_data (resp : Option (Nat × String)) : Except RunFail String :=
  match resp with
  | none => .error .crashed
  | some (_status, body) => .ok body

/-- The reader `get_meals` (`main.rs` 467-513): if the `.json` cache file for
the key exists, return its contents with no network access; otherwise fetch
(inline `reqwest::get(...).expect(...)`, same behaviour as `reqwest_data`)
and run the extractor on the fetched body.  Note the source performs no
cache write on this path (its `save_cache_to_file` calls are commented out). -/
def get_meals (scrape : String → Doc) (fs : CacheFs) (req_date_formatted : String)
    (resp : Option (Nat × String)) : Except RunFail (DayMeals × Trace) :=
  let url_params := urlParams req_date_formatted
  match getKV fs.jsons url_params with
  | some day_meals => .ok (day_meals, ⟨0, 0, 0, 0⟩)
  | none =>
    match resp with
    | none => .error .crashed
    | some (_status, html_text) =>
      match parse_data_from_html (scrape html_text) req_date_formatted with
      | .error .crashed => .error .crashed
      | .error .noMenu => .error .exitZero
      | .ok day_meals => .ok (day_meals, ⟨1, 0, 0, 1⟩)

/-- The writer `save_cache_to_file` (`main.rs` 203-224): write the raw HTML
file for the key, then obtain the structured data **via `get_meals`** (which
prefers the still-on-disk `.json` file and otherwise re-fetches from the
network — `resp` is that inner fetch's oracle) and write it to the `.json`
file. -/
def save_cache_to_file (scrape : String → Doc) (fs : CacheFs)
    (req_date_formatted html_text : String) (resp : Option (Nat × String)) :
    Except RunFail (CacheFs × Trace) :=
  let url_args := urlParams req_date_formatted
  let fs1 : CacheFs := { fs with raws := setKV fs.raws url_args html_text }
  match get_meals scrape fs1 req_date_formatted resp with
  | .error e => .error e
  | .ok (day_meals, t) =>
    .ok ({ fs1 with jsons := setKV fs1.jsons url_args day_meals },
      ⟨t.extractions, t.rawWrites + 1, t.jsonWrites + 1, t.fetches⟩)

/-- The per-date prefetch unit `cache_day_data` (`main.rs` 168-201): fetch
the day's page (`resp1`), then compare the body with the stored raw file;
when the file is absent or its contents differ, call `save_cache_to_file`
(whose inner `get_meals` fetch uses `resp2`); when they match, do nothing. -/
def cache_day_data (scrape : String → Doc) (fs : CacheFs)
    (req_date_formatted : String) (resp1 resp2 : Option (Nat × String)) :
    Except RunFail (CacheFs × Trace) :=
  match reqwest_data resp1 with
  | .error e => .error e
  | .ok html_text =>
    let url_args := urlParams req_date_formatted
    match getKV fs.raws url_args with
    | some contents =>
      if contents ≠ html_text then
        match save_cache_to_file scrape fs req_date_formatted html_text resp2 with
        | .error e => .error e
        | .ok (fs2, t) => .ok (fs2, ⟨t.extractions, t.rawWrites, t.jsonWrites, t.fetches + 1⟩)
      else .ok (fs, ⟨0, 0, 0, 1⟩)
    | none =>
      match save_cache_to_file scrape fs req_date_formatted html_text resp2 with
      | .error e => .error e
      | .ok (fs2, t) => .ok (fs2, ⟨t.extractions, t.rawWrites, t.jsonWrites, t.fetches + 1⟩)

/-! ### Concrete fixtures used by the witnesses and counterexamples -/

/-- A primary section title child (`class="title-prim"`). -/
def titleEl : Elem := elemOf "h3" ["title-prim"] "Vegan" []

/-- A decorative sibling between the title and its accordion block. -/
def junkEl : Elem := elemOf "h5" ["title-sec"] "Hinweis" []

def h4El : Elem := elemOf "h4" [] "Pasta" []

def pEl : Elem := elemOf "p" [] "Preis\n  2,50 €" []

def innerDivEl : Elem := elemOf "div" [] "" [h4El, pEl]

def midDivEl : Elem := elemOf "div" [] "" [innerDivEl]

def headerEl : Elem := elemOf "header" [] "" [midDivEl]

def liEl : Elem := elemOf "li" [] "Knoblauch" []

def ulEl : Elem := elemOf "ul" [] "" [liEl]

def detailsEl : Elem := elemOf "details" [] "" [ulEl]

/-- One dish element with its name/price header and extras list. -/
def dishEl : Elem := elemOf "article" [] "" [headerEl, detailsEl]

/-- The accordion block holding the dishes of a group. -/
def accordionEl : Elem := elemOf "div" ["accordion", "u-block"] "" [dishEl]

/-- A well-formed page for 2024-03-05 with one complete meal group. -/
def docGood : Doc := ⟨some "Mo., 05.03.2024", some [titleEl, junkEl, accordionEl]⟩

/-- A page whose `title-prim` child is never followed by an
`accordion u-block` sibling. -/
def docNoAccordion : Doc := ⟨some "Mo., 05.03.2024", some [titleEl, junkEl]⟩

/-- The menu `parse_data_from_html` extracts from `docGood`. -/
def dmGood : DayMeals :=
  ⟨"Mo., 05.03.2024", [⟨"Vegan", [⟨"Pasta", ["Knoblauch"], "2,50 €"⟩]⟩]⟩

/-- A stale structured record, distinct from `dmGood`. -/
def dmStale : DayMeals := ⟨"stale", []⟩

/-- Scrape oracle returning `docGood` for every body. -/
def scrapeGood : String → Doc := fun _ => docGood

/-- The cache key for the fixture date. -/
def keyFix : String := urlParams "2024-03-05"

/-! ### Claim theorems -/

/-- Claim C1.  The claim says a reconcile that sees a changed raw snapshot
runs the extractor on the fresh raw text and persists the structured result
derived from it.  The code does not: `save_cache_to_file` writes the fresh
raw file and then obtains the structured data via `get_meals`, which prefers
the still-present stale `.json` file.  Concretely: the cache holds raw
`"old"` with stale structured data; a reconcile with fresh raw `"new"`
replaces the raw file but re-persists the stale structured record, performs
zero extractions (and no inner fetch: its oracle is `none` yet nothing
fails), even though extracting `"new"` would give a different menu. -/
theorem c1_reconcile_keeps_stale_structured :
    cache_day_data scrapeGood ⟨[(keyFix, "old")], [(keyFix, dmStale)]⟩ "2024-03-05"
        (some (200, "new")) none
      = .ok (⟨[(keyFix, "new")], [(keyFix, dmStale)]⟩, ⟨0, 1, 1, 1⟩) ∧
    parse_data_from_html (scrapeGood "new") "2024-03-05" = .ok dmGood ∧
    dmStale ≠ dmGood :=
  ⟨rfl, rfl, by decide⟩

/-- Claim C3.  The claim says the sibling-skip search ends in an explicit
tagged "not found" outcome rather than an unchecked crash.  In the code the
search is `next_sibling_element().unwrap()` in a loop: reaching the end of
the sibling chain panics (modelled by `findAccordion = none`, mapped to the
`crashed` outcome), and no tagged structural-fault value exists.  A page
whose `title-prim` child has no later `accordion u-block` sibling makes the
whole extraction crash. -/
theorem c3_missing_accordion_marker_crashes :
    findAccordion [] = none ∧ findAccordion [junkEl] = none ∧
    parse_data_from_html docNoAccordion "2024-03-05" = .error .crashed :=
  ⟨rfl, rfl, rfl⟩

/-- Claim C4.  The claim says `get_meals` on a cache miss reconciles the
fetched raw HTML into the cache before returning.  The code performs no
cache write on the miss path (every `save_cache_to_file` call there is
commented out): the miss run below fetches once and extracts once but its
write counters are zero.  The cache-hit half of the claim does hold: with a
stored structured record the call returns it with no network access (the
network oracle is `none`, a would-be transport panic, and is never
touched). -/
theorem c4_get_meals_miss_never_persists :
    get_meals scrapeGood ⟨[], []⟩ "2024-03-05" (some (200, "fresh"))
      = .ok (dmGood, ⟨1, 0, 0, 1⟩) ∧
    get_meals scrapeGood ⟨[], [(keyFix, dmStale)]⟩ "2024-03-05" none
      = .ok (dmStale, ⟨0, 0, 0, 0⟩) :=
  ⟨rfl, rfl⟩

/-- Claim C5.  The claim says two successive reconciles with the same raw
text perform extraction exactly once and that the second call returns the
stored structured result.  In the code `cache_day_data` returns nothing,
and starting from a cache that already holds an entry for the key the two
calls perform extraction zero times, not once: the first call's
`save_cache_to_file` takes its structured data from the stale `.json` file
instead of extracting the fresh raw text.  The second call does leave the
store untouched (traces: extractions 0 + 0, second call writes nothing). -/
theorem c5_reconcile_twice_extracts_zero_times :
    cache_day_data scrapeGood ⟨[(keyFix, "old")], [(keyFix, dmStale)]⟩ "2024-03-05"
        (some (200, "rawX")) none
      = .ok (⟨[(keyFix, "rawX")], [(keyFix, dmStale)]⟩, ⟨0, 1, 1, 1⟩) ∧
    cache_day_data scrapeGood ⟨[(keyFix, "rawX")], [(keyFix, dmStale)]⟩ "2024-03-05"
        (some (200, "rawX")) none
      = .ok (⟨[(keyFix, "rawX")], [(keyFix, dmStale)]⟩, ⟨0, 0, 0, 1⟩) :=
  ⟨rfl, rfl⟩

/-- Claim C6.  The claim says the fetcher fails with a `FetchError` value on
transport failure and on non-success HTTP status, never returning the body
of a non-success response.  The code checks no status at all and returns the
body of a 404 or 500 response as if it were the menu page, and a transport
failure is an `expect` panic (process abort), not an error value propagated
to the caller. -/
theorem c6_fetch_error_handling_missing :
    reqwest_data (some (404, "<html>Not Found</html>")) = .ok "<html>Not Found</html>" ∧
    reqwest_data (some (500, "Server Error")) = .ok "Server Error" ∧
    reqwest_data none = .error .crashed :=
  ⟨rfl, rfl, rfl⟩

/-- Claim C7.  The claim says a failing per-date unit is reported without
cancelling or aborting the sibling units, and the orchestration completes
only after every launched unit finished.  The code's join loop is
`handle.await.expect("Panic in task")`: the first panicked task aborts the
whole process at its join, before the remaining handles are awaited (and the
runtime teardown kills the still-running tasks).  With two units whose first
panics, only 1 of 2 handles is awaited and the loop does not complete; only
an all-success run joins every unit. -/
theorem c7_task_failure_aborts_join :
    prefetchJoin [false, true] = (1, false) ∧
    prefetchJoin [true, false, true] = (2, false) ∧
    prefetchJoin [true, true, true] = (3, true) :=
  ⟨rfl, rfl, rfl⟩

/-- Claim C2.  Whenever the date-echo reformats successfully to a string
that differs from the requested date, the extractor takes the no-menu path
(`exit(0)` with the "no plan exists" message) and never returns a `DayMeals`;
a matching date never produces that outcome (any later failure is a crash,
not `noMenu`). -/
theorem c2_date_mismatch_is_no_menu (doc : Doc) (req s fmt : String)
    (hsel : doc.selOption = some s) (hfmt : recvDateFormatted s = some fmt) :
    (fmt ≠ req → parse_data_from_html doc req = .error .noMenu) ∧
    (fmt = req → parse_data_from_html doc req ≠ .error .noMenu) := by
  constructor
  · intro hne
    simp [parse_data_from_html, hsel, hfmt, hne]
  · intro heq
    subst heq
    simp only [parse_data_from_html, hsel, hfmt]
    rw [if_neg (by simp)]
    cases doc.meals with
    | none => simp
    | some children => cases hg : parseGroups children <;> simp [hg]

/-- Witness for C2 at the concrete fixture page (date-echo
`Mo., 05.03.2024`): requesting 2024-03-06 hits the no-menu outcome,
requesting 2024-03-05 does not. -/
theorem c2_witness :
    parse_data_from_html docGood "2024-03-06" = .error .noMenu ∧
    parse_data_from_html docGood "2024-03-05" ≠ .error .noMenu :=
  ⟨(c2_date_mismatch_is_no_menu docGood "2024-03-06" "Mo., 05.03.2024" "2024-03-05"
      rfl rfl).1 (by decide),
   (c2_date_mismatch_is_no_menu docGood "2024-03-05" "Mo., 05.03.2024" "2024-03-05"
      rfl rfl).2 rfl⟩

/-- Claim C8.  Date resolution computes `today + mode` and then adds exactly
2 days on a Saturday, exactly 1 on a Sunday and 0 otherwise (returned as
`date_raised_by_days`); the resolved date never moves backward; and a
shifted `mode = 0` request is annotated with the matching forward-shift
marker. -/
theorem c8_date_resolution (today mode : Int) :
    (resolveDate today mode).1 = today + mode + (resolveDate today mode).2 ∧
    (weekdayOfInt (today + mode) = Weekday.sat → (resolveDate today mode).2 = 2) ∧
    (weekdayOfInt (today + mode) = Weekday.sun → (resolveDate today mode).2 = 1) ∧
    (weekdayOfInt (today + mode) ≠ Weekday.sat → weekdayOfInt (today + mode) ≠ Weekday.sun →
      (resolveDate today mode).2 = 0) ∧
    today + mode ≤ (resolveDate today mode).1 ∧
    (mode = 0 → (resolveDate today mode).2 = 1 →
      futureDayInfo mode (resolveDate today mode).2 = "(Morgen)") ∧
    (mode = 0 → (resolveDate today mode).2 = 2 →
      futureDayInfo mode (resolveDate today mode).2 = "(Übermorgen)") := by
  cases h : weekdayOfInt (today + mode) <;>
    simp [resolveDate, h, futureDayInfo]

/-- Witness for C8: day 5 is a Saturday, so a `mode = 0` request resolves
two days forward (to day 7, the next Monday) and is annotated with the
day-after marker. -/
theorem c8_witness :
    (resolveDate 5 0).2 = 2 ∧ (resolveDate 5 0).1 = 7 ∧
    futureDayInfo 0 (resolveDate 5 0).2 = "(Übermorgen)" := by
  obtain ⟨h1, h2, h3, h4, h5, h6, h7⟩ := c8_date_resolution 5 0
  have hs : (resolveDate 5 0).2 = 2 := h2 (by decide)
  exact ⟨hs, by omega, h7 rfl hs⟩

/-- Claim C9.  The prefetch date set is a function of the current weekday:
Monday-Wednesday give `today, today+1, today+2`; Thursday gives
`today, today+1, today+4`; Friday gives `today` and `today+3` (next Monday);
Saturday gives only `today+2` (next Monday); Sunday gives `today+1` (next
Monday) and `today+2` (next Tuesday); and the list is duplicate-free. -/
theorem c9_prefetch_dates (today : Int) :
    ((weekdayOfInt today = Weekday.mon ∨ weekdayOfInt today = Weekday.tue ∨
        weekdayOfInt today = Weekday.wed) →
      prefetchDays today = [today, today + 1, today + 2]) ∧
    (weekdayOfInt today = Weekday.thu →
      prefetchDays today = [today, today + 1, today + 4]) ∧
    (weekdayOfInt today = Weekday.fri →
      prefetchDays today = [today, today + 3] ∧
        weekdayOfInt (today + 3) = Weekday.mon) ∧
    (weekdayOfInt today = Weekday.sat →
      prefetchDays today = [today + 2] ∧ weekdayOfInt (today + 2) = Weekday.mon) ∧
    (weekdayOfInt today = Weekday.sun →
      prefetchDays today = [today + 1, today + 2] ∧
        weekdayOfInt (today + 1) = Weekday.mon ∧
        weekdayOfInt (today + 2) = Weekday.tue) ∧
    (prefetchDays today).Nodup := by
  have h7 : today % 7 = 0 ∨ today % 7 = 1 ∨ today % 7 = 2 ∨ today % 7 = 3 ∨
      today % 7 = 4 ∨ today % 7 = 5 ∨ today % 7 = 6 := by omega
  rcases h7 with h | h | h | h | h | h | h
  · simp [weekdayOfInt, prefetchDays, h, List.nodup_cons]
  · simp [weekdayOfInt, prefetchDays, h, List.nodup_cons]
  · simp [weekdayOfInt, prefetchDays, h, List.nodup_cons]
  · simp [weekdayOfInt, prefetchDays, h, List.nodup_cons]
  · have hm : (today + 3) % 7 = 0 := by omega
    simp [weekdayOfInt, prefetchDays, h, hm, List.nodup_cons]
  · have hm : (today + 2) % 7 = 0 := by omega
    simp [weekdayOfInt, prefetchDays, h, hm, List.nodup_cons]
  · have hm : (today + 1) % 7 = 0 := by omega
    have ht : (today + 2) % 7 = 1 := by omega
    simp [weekdayOfInt, prefetchDays, h, hm, ht, List.nodup_cons]

/-- Witness for C9: day 4 is a Friday; the prefetch set is the two dates
`4` and `7`, and day 7 is the following Monday. -/
theorem c9_witness :
    prefetchDays 4 = [4, 7] ∧ weekdayOfInt 7 = Weekday.mon := by
  obtain ⟨h1, h2⟩ := (c9_prefetch_dates 4).2.2.1 (by decide)
  norm_num at h1
  exact ⟨h1, h2⟩

/-! ### Lemmas for C10 (totality envelope of the date-echo slicing) -/

lemma drop_append_len {α : Type} (front l2 : List α) (j : Nat) :
    (front ++ l2).drop (front.length + j) = l2.drop j := by
  induction front with
  | nil => simp
  | cons a t ih =>
    have hlen : (a :: t).length + j = (t.length + j) + 1 := by
      simp [List.length_cons]
      omega
    rw [hlen, List.cons_append, List.drop_succ_cons, ih]

/-- A date-echo shorter than 10 bytes always makes the slicing panic: every
evaluation path of the reformatting ends at the underflowing `len - 10`. -/
lemma recvDate_short (bs : List Nat) (h : bs.length < 10) :
    recvDateFormattedBytes bs = none := by
  have h10 : rustSub? bs.length 10 = none := by
    unfold rustSub?
    rw [if_neg (by omega)]
  unfold recvDateFormattedBytes
  cases h1 : rustSub? bs.length 4 with
  | none => rfl
  | some a1 =>
    simp only [Option.some_bind']
    cases h2 : rustSliceBytes bs a1 bs.length with
    | none => rfl
    | some ys =>
      simp only [Option.some_bind']
      cases h3 : parseI32 ys with
      | none => rfl
      | some y =>
        simp only [Option.some_bind']
        cases h4 : rustSub? bs.length 7 with
        | none => rfl
        | some a2 =>
          simp only [Option.some_bind']
          cases h5 : rustSub? bs.length 5 with
          | none => rfl
          | some b2 =>
            simp only [Option.some_bind']
            cases h6 : rustSliceBytes bs a2 b2 with
            | none => rfl
            | some ms =>
              simp only [Option.some_bind']
              cases h7 : parseI32 ms with
              | none => rfl
              | some m =>
                simp only [Option.some_bind']
                rw [h10]
                rfl

lemma parseI32_digits2 (a b : Nat) (ha : 48 ≤ a ∧ a ≤ 57) (hb : 48 ≤ b ∧ b ≤ 57) :
    parseI32 [a, b] = some (((0 * 10 + (a - 48)) * 10 + (b - 48) : Nat) : Int) := by
  have h43 : ¬ a = 43 := by omega
  have h45 : ¬ a = 45 := by omega
  have h1 : digitVal? a = some (a - 48) := by simp [digitVal?, ha.1, ha.2]
  have h2 : digitVal? b = some (b - 48) := by simp [digitVal?, hb.1, hb.2]
  have hle : (0 * 10 + (a - 48)) * 10 + (b - 48) ≤ 2147483647 := by omega
  simp [parseI32, parseDigits, parseDigitsAux, h43, h45, h1, h2, hle]
  omega

lemma parseI32_digits4 (a b c d : Nat) (ha : 48 ≤ a ∧ a ≤ 57) (hb : 48 ≤ b ∧ b ≤ 57)
    (hc : 48 ≤ c ∧ c ≤ 57) (hd : 48 ≤ d ∧ d ≤ 57) :
    parseI32 [a, b, c, d]
      = some ((((((0 * 10 + (a - 48)) * 10 + (b - 48)) * 10 + (c - 48)) * 10 + (d - 48)
          : Nat)) : Int) := by
  have h43 : ¬ a = 43 := by omega
  have h45 : ¬ a = 45 := by omega
  have h1 : digitVal? a = some (a - 48) := by simp [digitVal?, ha.1, ha.2]
  have h2 : digitVal? b = some (b - 48) := by simp [digitVal?, hb.1, hb.2]
  have h3 : digitVal? c = some (c - 48) := by simp [digitVal?, hc.1, hc.2]
  have h4 : digitVal? d = some (d - 48) := by simp [digitVal?, hd.1, hd.2]
  have hle : (((0 * 10 + (a - 48)) * 10 + (b - 48)) * 10 + (c - 48)) * 10 + (d - 48)
      ≤ 2147483647 := by omega
  simp [parseI32, parseDigits, parseDigitsAux, h43, h45, h1, h2, h3, h4, hle]
  omega

/-- A date-echo ending in ten `DD.MM.YYYY` bytes never panics: all three
fixed slices land on digit runs within bounds and parse. -/
lemma recvDate_shape_total (front : List Nat) (d1 d2 m1 m2 y1 y2 y3 y4 : Nat)
    (hd1 : 48 ≤ d1 ∧ d1 ≤ 57) (hd2 : 48 ≤ d2 ∧ d2 ≤ 57)
    (hm1 : 48 ≤ m1 ∧ m1 ≤ 57) (hm2 : 48 ≤ m2 ∧ m2 ≤ 57)
    (hy1 : 48 ≤ y1 ∧ y1 ≤ 57) (hy2 : 48 ≤ y2 ∧ y2 ≤ 57)
    (hy3 : 48 ≤ y3 ∧ y3 ≤ 57) (hy4 : 48 ≤ y4 ∧ y4 ≤ 57) :
    (recvDateFormattedBytes
      (front ++ [d1, d2, 46, m1, m2, 46, y1, y2, y3, y4])).isSome = true := by
  set bs := front ++ [d1, d2, 46, m1, m2, 46, y1, y2, y3, y4] with hbs
  have hlen : bs.length = front.length + 10 := by rw [hbs]; simp
  have hD0 : bs.drop front.length = [d1, d2, 46, m1, m2, 46, y1, y2, y3, y4] := by
    have h := drop_append_len front [d1, d2, 46, m1, m2, 46, y1, y2, y3, y4] 0
    simp only [Nat.add_zero, List.drop_zero] at h
    rw [hbs]
    exact h
  have hD2 : bs.drop (front.length + 2) = [46, m1, m2, 46, y1, y2, y3, y4] := by
    rw [hbs, drop_append_len]
    rfl
  have hD3 : bs.drop (front.length + 3) = [m1, m2, 46, y1, y2, y3, y4] := by
    rw [hbs, drop_append_len]
    rfl
  have hD5 : bs.drop (front.length + 5) = [46, y1, y2, y3, y4] := by
    rw [hbs, drop_append_len]
    rfl
  have hD6 : bs.drop (front.length + 6) = [y1, y2, y3, y4] := by
    rw [hbs, drop_append_len]
    rfl
  have bnd : ∀ i b rest, bs.drop i = b :: rest → b < 128 → isCharBoundary bs i = true := by
    intro i b rest hdrop hlt
    have hi : i < bs.length := by
      by_contra hge
      rw [List.drop_eq_nil_of_le (by omega)] at hdrop
      exact List.noConfusion hdrop
    unfold isCharBoundary
    rw [if_neg (by omega), hdrop]
    simp
    omega
  have hB0 : isCharBoundary bs front.length = true := bnd _ d1 _ hD0 (by omega)
  have hB2 : isCharBoundary bs (front.length + 2) = true := bnd _ 46 _ hD2 (by omega)
  have hB3 : isCharBoundary bs (front.length + 3) = true := bnd _ m1 _ hD3 (by omega)
  have hB5 : isCharBoundary bs (front.length + 5) = true := bnd _ 46 _ hD5 (by omega)
  have hB6 : isCharBoundary bs (front.length + 6) = true := bnd _ y1 _ hD6 (by omega)
  have hBend : isCharBoundary bs bs.length = true := by simp [isCharBoundary]
  have hA1 : rustSub? bs.length 4 = some (front.length + 6) := by
    unfold rustSub?
    rw [if_pos (by omega)]
    congr 1
    omega
  have hA2 : rustSub? bs.length 7 = some (front.length + 3) := by
    unfold rustSub?
    rw [if_pos (by omega)]
    congr 1
    omega
  have hA2b : rustSub? bs.length 5 = some (front.length + 5) := by
    unfold rustSub?
    rw [if_pos (by omega)]
    congr 1
    omega
  have hA3 : rustSub? bs.length 10 = some front.length := by
    unfold rustSub?
    rw [if_pos (by omega)]
    congr 1
    omega
  have hA3b : rustSub? bs.length 8 = some (front.length + 2) := by
    unfold rustSub?
    rw [if_pos (by omega)]
    congr 1
    omega
  have hS1 : rustSliceBytes bs (front.length + 6) bs.length = some [y1, y2, y3, y4] := by
    unfold rustSliceBytes
    rw [if_pos ⟨by omega, by omega, hB6, hBend⟩, hD6]
    congr 1
    have ht : bs.length - (front.length + 6) = 4 := by omega
    rw [ht]
    rfl
  have hS2 : rustSliceBytes bs (front.length + 3) (front.length + 5) = some [m1, m2] := by
    unfold rustSliceBytes
    rw [if_pos ⟨by omega, by omega, hB3, hB5⟩, hD3]
    congr 1
    have ht : front.length + 5 - (front.length + 3) = 2 := by omega
    rw [ht]
    rfl
  have hS3 : rustSliceBytes bs front.length (front.length + 2) = some [d1, d2] := by
    unfold rustSliceBytes
    rw [if_pos ⟨by omega, by omega, hB0, hB2⟩, hD0]
    congr 1
    have ht : front.length + 2 - front.length = 2 := by omega
    rw [ht]
    rfl
  have hvy := parseI32_digits4 y1 y2 y3 y4 hy1 hy2 hy3 hy4
  have hvm := parseI32_digits2 m1 m2 hm1 hm2
  have hvd := parseI32_digits2 d1 d2 hd1 hd2
  simp [recvDateFormattedBytes, hA1, hS1, hvy, hA2, hA2b, hS2, hvm, hA3, hA3b, hS3, hvd]

/-- Claim C10 (amended).  The fixed-offset byte slicing of the date-echo
panics on any text shorter than 10 bytes, and is total whenever the text
ends in a `DD.MM.YYYY` digit string; when the echo does make the slicing
panic, the extraction crashes (process abort) instead of reporting the
no-menu condition or a tagged structural fault.  (The original claim's
converse — that every text not of `DD.MM.YYYY` shape panics — is refuted by
`c10_counterexample`: the dots are never inspected, so any text whose three
sliced ranges parse as integers succeeds.) -/
theorem c10_date_slicing_envelope (bs : List Nat) (doc : Doc) (s req : String)
    (front : List Nat) (d1 d2 m1 m2 y1 y2 y3 y4 : Nat) :
    (bs.length < 10 → recvDateFormattedBytes bs = none) ∧
    ((48 ≤ d1 ∧ d1 ≤ 57) → (48 ≤ d2 ∧ d2 ≤ 57) → (48 ≤ m1 ∧ m1 ≤ 57) →
      (48 ≤ m2 ∧ m2 ≤ 57) → (48 ≤ y1 ∧ y1 ≤ 57) → (48 ≤ y2 ∧ y2 ≤ 57) →
      (48 ≤ y3 ∧ y3 ≤ 57) → (48 ≤ y4 ∧ y4 ≤ 57) →
      (recvDateFormattedBytes
        (front ++ [d1, d2, 46, m1, m2, 46, y1, y2, y3, y4])).isSome = true) ∧
    (doc.selOption = some s → recvDateFormatted s = none →
      parse_data_from_html doc req = .error .crashed) := by
  refine ⟨recvDate_short bs, ?_, ?_⟩
  · intro h1 h2 h3 h4 h5 h6 h7 h8
    exact recvDate_shape_total front d1 d2 m1 m2 y1 y2 y3 y4 h1 h2 h3 h4 h5 h6 h7 h8
  · intro hsel hnone
    simp [parse_data_from_html, hsel, hnone]

/-- Counterexample to C10 as stated: the ten-byte text `0123456789` does not
end in a `DD.MM.YYYY`-shaped string, yet the extraction does not panic — it
happily slices out `01`, `34` and `6789` (the separator positions are never
checked). -/
theorem c10_counterexample :
    dateShape (utf8Bytes "0123456789") = false ∧
    recvDateFormattedBytes (utf8Bytes "0123456789") = some "6789-34-01" :=
  ⟨by decide, rfl⟩

/-- Witness for C10 at concrete inputs: a 2-byte echo panics; the fixture
echo `Mo., 05.03.2024` is total; an echo that panics makes the whole
extraction crash. -/
theorem c10_witness :
    recvDateFormattedBytes (utf8Bytes "xx") = none ∧
    (recvDateFormattedBytes (utf8Bytes "Mo., 05.03.2024")).isSome = true ∧
    parse_data_from_html (Doc.mk (some "kurz") (some [])) "2024-03-05"
      = .error .crashed := by
  obtain ⟨h1, h2, h3⟩ := c10_date_slicing_envelope (utf8Bytes "xx")
      (Doc.mk (some "kurz") (some [])) "kurz" "2024-03-05" (utf8Bytes "Mo., ")
      48 53 48 51 50 48 50 52
  refine ⟨h1 (by decide), ?_, h3 rfl (by decide)⟩
  have he : utf8Bytes "Mo., 05.03.2024"
      = utf8Bytes "Mo., " ++ [48, 53, 46, 48, 51, 46, 50, 48, 50, 52] := by decide
  rw [he]
  exact h2 (by decide) (by decide) (by decide) (by decide) (by decide) (by decide)
    (by decide) (by decide)

end Mensa
